import Mathlib

/-!
# Verification of the WhatsApp bulk-send task engine (src/index.js)

Shallow embedding of the bulk-send task engine of `src/index.js`.  The
repository ships two concatenated variants of the server:

* variant 1 (lines 1-451): the loop-based executor — `POST /send-message`
  starts an async loop that sends each parsed line with up to 3 attempts,
  chunked inter-message delays, and a `finally` block that stamps `endTime`;
* variant 2 (lines 452-1553): the queue-based executor — `POST /send-message`
  pushes one queue entry per parsed line onto the session's message queue and
  `processMessageQueue` drains it; `GET /task-status` and `POST /stop-task`
  operate on the shared `activeTasks` map.

Both variants are embedded below; each definition cites the source lines it
translates.  Time-dependent values (`Date.now()`, `new Date()`) are passed in
as an explicit `now : Nat`; the transport (`waClient.sendMessage`) is an
oracle telling whether a given attempt succeeds.
-/

/-- One entry of a session's message queue (index.js lines 1312-1318:
`queue.messages.push({ text, recipient, taskId, delayMs, addedAt })`;
`addedAt` is a timestamp never read back, omitted). -/
structure QueueEntry where
  text : String
  recipient : String
  taskId : String
  delayMs : Int
  deriving Repr, DecidableEq

/-- A session's message queue (index.js lines 569-579,
`initializeMessageQueue`). -/
structure Queue where
  messages : List QueueEntry
  isProcessing : Bool := false
  retryCount : Nat := 0
  maxRetries : Nat := 3
  deriving Repr, DecidableEq

/-- The `taskInfo` object (variant 1: index.js lines 170-187; variant 2:
lines 1282-1298).  Fields that are only logged (`lastUpdate`,
`lastSuccessTime`, `groupId`, reconnect bookkeeping) are omitted.  `pfx`
embeds the source field `prefix`.  `endTimeWrites` counts assignments to
`taskInfo.endTime` (lines 307 and 1392), so that "endedAt is set exactly
once" is expressible.  `error` embeds `taskInfo.error`; `completed` embeds
`taskInfo.completed` (line 309). -/
structure TaskInfo where
  taskId : String
  sessionId : String
  ownerId : String
  isSending : Bool
  stopRequested : Bool
  totalMessages : Nat
  sentMessages : Nat
  target : String
  targetType : String
  pfx : String
  error : Option String := none
  completed : Bool := false
  endTime : Option Nat := none
  endTimeWrites : Nat := 0
  deriving Repr, DecidableEq

/-- The fields of a `sessionInfo` that the send path reads (index.js lines
1090-1109 / 1132-1149). -/
structure SessionInfo where
  sessionId : String
  ownerId : String
  registered : Bool
  isConnecting : Bool
  deriving Repr, DecidableEq

/-- The process-wide mutable state the claims touch: `activeClients`,
`activeTasks`, `messageQueues` (index.js lines 518-521).  The JS `Map`s are
embedded as association lists keyed by `sessionId` / `taskId`. -/
structure ServerState where
  activeClients : List SessionInfo
  activeTasks : List TaskInfo
  messageQueues : List (String × Queue)
  deriving Repr, DecidableEq

/-- The error responses of the embedded endpoints (the `res.status(...)`
branches of index.js lines 1241-1277, 1344-1345, 1376-1386). -/
inductive ApiError where
  /-- 400 "Invalid or inactive sessionId" (line 1243). -/
  | invalidSession
  /-- 403 "Access denied ..." — the `Forbidden` of the spec (lines 1251, 1386). -/
  | accessDenied
  /-- 400 "Session not ready ..." (line 1256). -/
  | sessionNotReady
  /-- 400 "No target specified" (line 1267). -/
  | noTarget
  /-- 400 "Invalid message file" (line 1276). -/
  | invalidMessageFile
  /-- 404 "Task not found" (line 1345). -/
  | taskNotFound
  /-- 400 "Task ID is required" (line 1376). -/
  | taskIdRequired
  /-- 400 "User ID is required" (line 1377). -/
  | userIdRequired
  deriving Repr, DecidableEq

/-! ## Parsing the uploaded message file

index.js line 163 / 1272:
`fs.readFileSync(filePath, "utf-8").split("\n").map(m => m.trim()).filter(Boolean)` —
`filter(Boolean)` drops exactly the empty strings.  JS `split("\n")` and
`trim()` are embedded by structural recursion on the character list of the
string (ASCII whitespace for `trim`). -/

/-- ASCII whitespace, the characters JS `trim()` removes from these inputs. -/
def isWs (c : Char) : Bool :=
  c = ' ' || c = '\t' || c = '\n' || c = '\r'

/-- `split("\n")` on a character list, accumulating the current line. -/
def splitLinesAux : List Char → List Char → List String
  | [], acc => [String.mk acc.reverse]
  | c :: cs, acc =>
    if c = '\n' then String.mk acc.reverse :: splitLinesAux cs []
    else splitLinesAux cs (c :: acc)

/-- JS `content.split("\n")`. -/
def splitLines (s : String) : List String :=
  splitLinesAux s.data []

/-- JS `line.trim()`: strip leading and trailing whitespace. -/
def trimStr (s : String) : String :=
  String.mk (((s.data.dropWhile isWs).reverse.dropWhile isWs).reverse)

/-- The message list parsed from the uploaded file (index.js line 163 / 1272). -/
def parseMessages (content : String) : List String :=
  ((splitLines content).map trimStr).filter (fun m => decide (m ≠ ""))

/-! ## Recipient-address resolution

index.js lines 241-243 / 1304-1306:
```
const recipient = taskInfo.targetType === "group"
    ? (taskInfo.target.includes('@g.us') ? taskInfo.target : taskInfo.target + '@g.us')
    : (taskInfo.target.includes('@s.whatsapp.net') ? taskInfo.target : taskInfo.target + '@s.whatsapp.net');
```
JS `String.prototype.includes` is substring containment, embedded below on
the character lists of the strings. -/

/-- `listStartsWith pat l` : `pat` is a prefix of `l`. -/
def listStartsWith : List Char → List Char → Bool
  | [], _ => true
  | _ :: _, [] => false
  | p :: ps, c :: cs => decide (p = c) && listStartsWith ps cs

/-- `listOccurs pat l` : `pat` occurs as a contiguous sublist of `l`
(the semantics of JS `l.includes(pat)`). -/
def listOccurs (pat : List Char) : List Char → Bool
  | [] => pat.isEmpty
  | c :: cs => listStartsWith pat (c :: cs) || listOccurs pat cs

/-- JS `s.includes(pat)`. -/
def strIncludes (s pat : String) : Bool :=
  listOccurs pat.data s.data

/-- Recipient resolution (index.js lines 241-243 / 1304-1306): append the
canonical suffix of the target kind unless the target already contains it. -/
def resolveRecipient (targetType target : String) : String :=
  if targetType = "group" then
    if strIncludes target "@g.us" then target else target ++ "@g.us"
  else
    if strIncludes target "@s.whatsapp.net" then target else target ++ "@s.whatsapp.net"

theorem listStartsWith_refl (l : List Char) : listStartsWith l l = true := by
  induction l with
  | nil => rfl
  | cons c cs ih => simp [listStartsWith, ih]

theorem listOccurs_self (pat : List Char) : listOccurs pat pat = true := by
  cases pat with
  | nil => rfl
  | cons c cs => simp [listOccurs, listStartsWith_refl]

theorem listOccurs_append_self (l pat : List Char) :
    listOccurs pat (l ++ pat) = true := by
  induction l with
  | nil => simpa using listOccurs_self pat
  | cons c cs ih => simp [listOccurs, ih]

theorem strIncludes_append_self (t pat : String) :
    strIncludes (t ++ pat) pat = true := by
  have h : (t ++ pat).data = t.data ++ pat.data := String.data_append t pat
  simp [strIncludes, h, listOccurs_append_self]

/-! ## The submission request

`POST /send-message` reads its fields from the multipart body (index.js line
1238).  A missing or empty form field is falsy in JS; both are embedded as
`none`.  `delaySec` arrives as a string and is only ever used through
`parseFloat(delaySec) * 1000`; it is embedded as the parsed numeric value
(`none` for an absent/empty field, whose `parseFloat` is `NaN` — `NaN`
compares `false` against everything, which the embedding notes where used). -/

structure Submission where
  sessionId : Option String
  target : Option String
  targetType : Option String
  delaySec : Option Int
  userPfx : Option String
  userId : Option String
  groupId : Option String
  /-- Content of the uploaded `messageFile`; `none` when no file was sent
  (then `fs.readFileSync(undefined)` throws, caught at line 1274). -/
  fileContent : Option String
  deriving Repr, DecidableEq

/-- `activeClients.get(sessionId)` (index.js line 1246). -/
def findSession (clients : List SessionInfo) (sid : String) : Option SessionInfo :=
  clients.find? (fun c => decide (c.sessionId = sid))

/-- `activeTasks.get(taskId)` (index.js line 1348 / 1383). -/
def findTask (tasks : List TaskInfo) (tid : String) : Option TaskInfo :=
  tasks.find? (fun t => decide (t.taskId = tid))

/-- `messageQueues.get(sessionId)` (index.js line 1349 / 1396). -/
def lookupQueue (qs : List (String × Queue)) (sid : String) : Option Queue :=
  (qs.find? (fun p => decide (p.1 = sid))).map Prod.snd

/-- Overwrite the queue stored under `sid` (mutation of the `Map` entry). -/
def setQueue (qs : List (String × Queue)) (sid : String) (q : Queue) :
    List (String × Queue) :=
  qs.map (fun p => if p.1 = sid then (sid, q) else p)

/-- `let finalTarget = target; if (groupId && targetType === "group")
finalTarget = groupId;` (index.js lines 1260-1263). -/
def finalTargetOf (sub : Submission) : Option String :=
  match sub.groupId with
  | some g => if sub.targetType = some "group" then some g else sub.target
  | none => sub.target

/-- The `taskInfo` object built on a valid submission (index.js lines
1282-1298). -/
def buildTaskInfo (sid : String) (sessionInfo : SessionInfo) (sub : Submission)
    (tgt : String) (total now : Nat) : TaskInfo :=
  { taskId := "TASK_" ++ toString now
    sessionId := sid
    ownerId := sub.userId.getD sessionInfo.ownerId
    isSending := true
    stopRequested := false
    totalMessages := total
    sentMessages := 0
    target := tgt
    targetType := sub.targetType.getD ""
    pfx := sub.userPfx.getD "" }

/-- The queue entries pushed for one task (index.js lines 1303-1319): the
recipient is resolved once, the prefix is prepended to every line. -/
def entriesFor (taskInfo : TaskInfo) (messages : List String) (delayMs : Int) :
    List QueueEntry :=
  messages.map (fun m =>
    { text := if taskInfo.pfx ≠ "" then taskInfo.pfx ++ " " ++ m else m
      recipient := resolveRecipient taskInfo.targetType taskInfo.target
      taskId := taskInfo.taskId
      delayMs := delayMs })

/-- The success path of `POST /send-message` (index.js lines 1279-1322):
register the `taskInfo` in `activeTasks` and push one queue entry per parsed
line onto the session's queue (created on the fly when absent, as
`initializeMessageQueue` would have). -/
def createTaskAndEnqueue (st : ServerState) (sid : String)
    (sessionInfo : SessionInfo) (sub : Submission) (tgt content : String)
    (now : Nat) : String × ServerState :=
  let messages := parseMessages content
  let delayMs : Int := (match sub.delaySec with | some d => d * 1000 | none => 0)
  let taskInfo := buildTaskInfo sid sessionInfo sub tgt messages.length now
  let q := (lookupQueue st.messageQueues sid).getD
    { messages := [], isProcessing := false, retryCount := 0, maxRetries := 3 }
  let q' := { q with messages := q.messages ++ entriesFor taskInfo messages delayMs }
  let queues' :=
    if (lookupQueue st.messageQueues sid).isSome then
      setQueue st.messageQueues sid q'
    else
      st.messageQueues ++ [(sid, q')]
  (taskInfo.taskId,
    { st with activeTasks := st.activeTasks ++ [taskInfo]
              messageQueues := queues' })

/-- `POST /send-message`, variant 2 (index.js lines 1237-1338): validation,
task creation, and enqueueing of one entry per parsed line.  `now` stands
for `Date.now()` (the task id is `TASK_${Date.now()}`, line 1279).  The
kick-off of `processMessageQueue` (line 1322) is execution, embedded
separately as `processQueue`.  On success the handler returns the new task
id and the updated state; every `.error` branch returns before `activeTasks`
or `messageQueues` is touched. -/
def sendMessage (st : ServerState) (sub : Submission) (now : Nat) :
    Except ApiError (String × ServerState) :=
  -- lines 1241-1244: `if (!sessionId || !activeClients.has(sessionId))`
  match sub.sessionId with
  | none => .error .invalidSession
  | some sid =>
  match findSession st.activeClients sid with
  | none => .error .invalidSession
  | some sessionInfo =>
  -- lines 1249-1252: ownership check, only when `userId` is truthy
  if sub.userId.any (fun uid => decide (sessionInfo.ownerId ≠ uid)) then
    .error .accessDenied
  else
  -- lines 1254-1257: `if (!sessionInfo.registered || sessionInfo.isConnecting)`
  if !sessionInfo.registered || sessionInfo.isConnecting then
    .error .sessionNotReady
  else
  -- lines 1260-1268: target resolution and `if (!finalTarget)`
  match finalTargetOf sub with
  | none => .error .noTarget
  | some tgt =>
  -- lines 1270-1277: read and parse the file, reject an empty message list
  match sub.fileContent with
  | none => .error .invalidMessageFile
  | some content =>
  if (parseMessages content).isEmpty then .error .invalidMessageFile
  else
    -- lines 1279-1322: build, register and enqueue
    .ok (createTaskAndEnqueue st sid sessionInfo sub tgt content now)

/-! ## `GET /task-status` (index.js lines 1341-1370)

The handler takes only `taskId` from the query string — it reads no
`userId` and performs no ownership comparison. -/

/-- The `status` string of the response (line 1353). -/
def statusString (t : TaskInfo) : String :=
  if t.isSending then (if t.stopRequested then "stopping" else "sending")
  else "completed"

/-- `Math.round((sent / total) * 100)` on natural inputs with `total > 0`
(line 1357); `Math.round x = ⌊x + 1/2⌋`. -/
def jsRoundPercent (sent total : Nat) : Nat :=
  (200 * sent + total) / (2 * total)

/-- The JSON body of `GET /task-status` (lines 1351-1369). -/
structure StatusResponse where
  taskId : String
  status : String
  sent : Nat
  total : Nat
  percentage : Nat
  /-- `queueInfo.queued`: entries still queued for this task (line 1360);
  `none` when the session has no queue. -/
  queuedForTask : Option Nat
  processing : Option Bool
  deriving Repr, DecidableEq

/-- `GET /task-status` (index.js lines 1341-1370).  Note the parameter list:
the caller's identity is not part of the request. -/
def taskStatus (st : ServerState) (taskId : Option String) :
    Except ApiError StatusResponse :=
  match taskId with
  | none => .error .taskNotFound
  | some tid =>
  match findTask st.activeTasks tid with
  | none => .error .taskNotFound
  | some task =>
    let q := lookupQueue st.messageQueues task.sessionId
    .ok { taskId := task.taskId
          status := statusString task
          sent := task.sentMessages
          total := task.totalMessages
          percentage := jsRoundPercent task.sentMessages task.totalMessages
          queuedForTask := q.map
            (fun q => (q.messages.filter (fun e => decide (e.taskId = tid))).length)
          processing := q.map (fun q => q.isProcessing) }

/-! ## `POST /stop-task` (index.js lines 1373-1411)

The handler validates `taskId`/`userId`, looks up the task, rejects an
ownership mismatch with 403 before any mutation, then sets
`task.stopRequested = true`, `task.isSending = false`,
`task.endTime = new Date()` (lines 1390-1392) and removes this task's
entries from the session's queue (lines 1395-1399). -/

/-- The task mutation of the stop handler (index.js lines 1390-1392). -/
def stopTaskFields (now : Nat) (t : TaskInfo) : TaskInfo :=
  { t with stopRequested := true
           isSending := false
           endTime := some now
           endTimeWrites := t.endTimeWrites + 1 }

/-- `queue.messages = queue.messages.filter(msg => msg.taskId !== taskId)`
(index.js line 1397). -/
def filterQueueMessages (q : Queue) (tid : String) : Queue :=
  { q with messages := q.messages.filter (fun e => decide (e.taskId ≠ tid)) }

/-- The mutations of a successful stop (index.js lines 1389-1399): flip the
task's flags and stamp `endTime` in `activeTasks`, and drop this task's
entries from its session's queue, when that session has one. -/
def applyStop (st : ServerState) (task : TaskInfo) (tid : String) (now : Nat) :
    ServerState :=
  { st with
    activeTasks := st.activeTasks.map
      (fun t => if t.taskId = tid then stopTaskFields now t else t)
    messageQueues :=
      match lookupQueue st.messageQueues task.sessionId with
      | none => st.messageQueues
      | some q => setQueue st.messageQueues task.sessionId (filterQueueMessages q tid) }

/-- `POST /stop-task` (index.js lines 1373-1411).  `now` stands for the
`new Date()` of line 1392. -/
def stopTask (st : ServerState) (taskId userId : Option String) (now : Nat) :
    Except ApiError ServerState :=
  match taskId with
  | none => .error .taskIdRequired
  | some tid =>
  match userId with
  | none => .error .userIdRequired
  | some uid =>
  match findTask st.activeTasks tid with
  | none => .error .taskNotFound
  | some task =>
  if task.ownerId ≠ uid then .error .accessDenied
  else .ok (applyStop st task tid now)

/-! ## The queue processor (variant 2, index.js lines 582-638)

`processMessageQueue` drains `queue.messages` head-first: on a successful
send it shifts the entry, resets `retryCount` and increments the owning
task's `sentMessages` (lines 601-613); on a failed send it increments
`retryCount`, and once `retryCount >= maxRetries` it shifts the entry
without crediting the task (lines 617-629).  The loop guard also reads
`queue.stopRequested` (line 590), a field nothing in the program ever sets,
so it is always falsy and is not part of the embedded `Queue`.  The send
itself is abstracted by a boolean oracle indexed by the remaining fuel;
waits (`delay(...)`) only consume time and are not part of the state. -/

/-- `task.sentMessages++` for the entry's owning task, if registered
(index.js lines 608-613). -/
def bumpTask (tasks : List TaskInfo) (tid : String) : List TaskInfo :=
  tasks.map (fun t => if t.taskId = tid then { t with sentMessages := t.sentMessages + 1 } else t)

/-- One iteration of the `processMessageQueue` while-loop
(index.js lines 590-635). -/
def queueStep (ok : Bool) (tasks : List TaskInfo) (q : Queue) :
    List TaskInfo × Queue :=
  match q.messages with
  | [] => (tasks, q)
  | job :: rest =>
    if ok then
      (bumpTask tasks job.taskId, { q with messages := rest, retryCount := 0 })
    else
      let rc := q.retryCount + 1
      if q.maxRetries ≤ rc then
        (tasks, { q with messages := rest, retryCount := 0 })
      else
        (tasks, { q with retryCount := rc })

/-- The `processMessageQueue` while-loop (index.js lines 590-635), with an
explicit fuel bound; `ok fuel` tells whether the send attempted at that
iteration succeeds. -/
def processQueue (ok : Nat → Bool) : Nat → List TaskInfo × Queue → List TaskInfo × Queue
  | 0, s => s
  | fuel + 1, (tasks, q) =>
    if q.messages.isEmpty then (tasks, q)
    else processQueue ok fuel (queueStep (ok fuel) tasks q)

/-! ## The loop-based executor (variant 1, index.js lines 205-323)

For each message index, an inner while-loop makes up to
`maxSendAttempts = 3` attempts (lines 212-281); reconnect handling and the
waits between attempts only consume time, so an attempt is abstracted to the
boolean `ok attempt` of a transport oracle.  If no attempt succeeded and no
stop was requested, the loop records `taskInfo.error` and still increments
`sentMessages` — "Count as attempted", lines 283-288.  The external
`stopRequested` flag is embedded as the schedule `stopReq : Nat → Bool`
(`stopReq idx` = a stop request has arrived by the start of iteration
`idx`), OR-ed into the task's own flag at the head of each iteration; the
loop exits as soon as the flag is observed (lines 207, 301). -/

/-- `maxSendAttempts` (index.js line 210). -/
def maxSendAttempts : Nat := 3

/-- The inner attempt loop (index.js lines 212-281): try attempts
`a, a+1, ...` while fuel remains, returning whether some attempt succeeded. -/
def trySendLoop (ok : Nat → Bool) : Nat → Nat → Bool
  | 0, _ => false
  | fuel + 1, a => if ok a then true else trySendLoop ok fuel (a + 1)

/-- Whether the message at index `idx` gets sent, given the per-attempt
oracle `ok idx` (index.js lines 212-281). -/
def messageSendSucceeds (ok : Nat → Nat → Bool) (idx : Nat) : Bool :=
  trySendLoop (ok idx) maxSendAttempts 0

/-- The per-index body plus the for-loop of index.js lines 207-302, state
changes only (waits dropped).  `msgs` is the remaining suffix of the parsed
message list, `idx` the index of its head. -/
def runLoop (ok : Nat → Nat → Bool) (stopReq : Nat → Bool) :
    List String → Nat → TaskInfo → TaskInfo
  | [], _, t => t
  | _m :: rest, idx, t =>
    let t1 := { t with stopRequested := t.stopRequested || stopReq idx }
    if t1.stopRequested then t1
    else
      let t2 :=
        if messageSendSucceeds ok idx then
          -- lines 247-248: success
          { t1 with sentMessages := t1.sentMessages + 1 }
        else
          -- lines 283-288: record the failure, count as attempted
          { t1 with error := some "Failed to send message after 3 attempts"
                    sentMessages := t1.sentMessages + 1 }
      runLoop ok stopReq rest (idx + 1) t2

/-- The `finally` block (index.js lines 306-313): stamp `endTime`, clear
`isSending`, and set `completed = !stopRequested`. -/
def finishTask (now : Nat) (t : TaskInfo) : TaskInfo :=
  { t with endTime := some now
           endTimeWrites := t.endTimeWrites + 1
           isSending := false
           completed := !t.stopRequested }

/-- The whole async executor of variant 1 (index.js lines 205-323): the
for-loop followed by the `finally` block. -/
def executeTask (ok : Nat → Nat → Bool) (stopReq : Nat → Bool)
    (msgs : List String) (now : Nat) (t : TaskInfo) : TaskInfo :=
  finishTask now (runLoop ok stopReq msgs 0 t)

/-! ## The chunked inter-message delay (variant 1, index.js lines 290-299)

```
const waitMs = parseFloat(delaySec) * 1000;
const chunkSize = 1000; // Check every second if stopped
const chunks = Math.ceil(waitMs / chunkSize);
for (let t = 0; t < chunks && !taskInfo.stopRequested; t++) {
    await delay(chunkSize);
}
```
The loop checks `stopRequested` before each 1000 ms sleep.  `delayLoop
stopped n e` returns the elapsed time (ms since the wait began) at which the
loop exits, where `stopped e` tells whether the stop flag is set at elapsed
time `e`; `n` is the number of chunks still to sleep. -/

/-- `chunkSize` (index.js line 293). -/
def chunkSizeMs : Nat := 1000

/-- `Math.ceil(waitMs / chunkSize)` (index.js line 294). -/
def waitChunks (waitMs : Nat) : Nat :=
  (waitMs + chunkSizeMs - 1) / chunkSizeMs

/-- The delay for-loop (index.js lines 296-298): elapsed exit time. -/
def delayLoop (stopped : Nat → Bool) : Nat → Nat → Nat
  | 0, elapsed => elapsed
  | n + 1, elapsed =>
    if stopped elapsed then elapsed
    else delayLoop stopped n (elapsed + chunkSizeMs)

/-! ## Helper lemmas about the embedded `Map` operations -/

theorem lookupQueue_setQueue_self (qs : List (String × Queue)) (sid : String)
    (q q₀ : Queue) (h : lookupQueue qs sid = some q₀) :
    lookupQueue (setQueue qs sid q) sid = some q := by
  induction qs with
  | nil => simp [lookupQueue] at h
  | cons p ps ih =>
    by_cases hp : p.1 = sid
    · simp [lookupQueue, setQueue, List.find?_cons, hp]
    · simp only [lookupQueue, setQueue, List.map_cons, if_neg hp] at *
      rw [List.find?_cons_of_neg _ (by simpa using hp)] at h ⊢
      exact ih h

theorem lookupQueue_setQueue_ne (qs : List (String × Queue)) (sid sid' : String)
    (q : Queue) (h : sid' ≠ sid) :
    lookupQueue (setQueue qs sid q) sid' = lookupQueue qs sid' := by
  induction qs with
  | nil => rfl
  | cons p ps ih =>
    by_cases hp : p.1 = sid
    · have hps : ¬ ((sid, q).1 = sid') := by simpa using fun hh => h hh.symm
      have hp' : ¬ (p.1 = sid') := by rw [hp]; simpa using fun hh => h hh.symm
      simp only [setQueue, List.map_cons, if_pos hp, lookupQueue]
      rw [List.find?_cons_of_neg _ (by simpa using hps),
          List.find?_cons_of_neg _ (by simpa using hp')]
      exact ih
    · simp only [setQueue, List.map_cons, if_neg hp, lookupQueue]
      by_cases hq : p.1 = sid'
      · rw [List.find?_cons_of_pos _ (by simpa using hq),
            List.find?_cons_of_pos _ (by simpa using hq)]
      · rw [List.find?_cons_of_neg _ (by simpa using hq),
            List.find?_cons_of_neg _ (by simpa using hq)]
        exact ih

theorem lookupQueue_append_single_self (qs : List (String × Queue)) (sid : String)
    (q : Queue) (h : lookupQueue qs sid = none) :
    lookupQueue (qs ++ [(sid, q)]) sid = some q := by
  induction qs with
  | nil => simp [lookupQueue]
  | cons p ps ih =>
    by_cases hp : p.1 = sid
    · simp [lookupQueue, List.find?_cons_of_pos, hp] at h
    · simp only [lookupQueue, List.cons_append] at *
      rw [List.find?_cons_of_neg _ (by simpa using hp)] at h ⊢
      exact ih h

theorem lookupQueue_append_single_ne (qs : List (String × Queue)) (sid sid' : String)
    (q : Queue) (h : sid' ≠ sid) :
    lookupQueue (qs ++ [(sid, q)]) sid' = lookupQueue qs sid' := by
  induction qs with
  | nil => simp [lookupQueue, List.find?, Ne.symm h]
  | cons p ps ih =>
    by_cases hq : p.1 = sid'
    · simp only [lookupQueue, List.cons_append]
      rw [List.find?_cons_of_pos _ (by simpa using hq),
          List.find?_cons_of_pos _ (by simpa using hq)]
    · simp only [lookupQueue, List.cons_append] at *
      rw [List.find?_cons_of_neg _ (by simpa using hq),
          List.find?_cons_of_neg _ (by simpa using hq)]
      exact ih

theorem lookupQueue_mem (qs : List (String × Queue)) (sid : String) (q : Queue)
    (h : lookupQueue qs sid = some q) : (sid, q) ∈ qs := by
  unfold lookupQueue at h
  cases hf : qs.find? (fun p => decide (p.1 = sid)) with
  | none => rw [hf] at h; simp at h
  | some p =>
    have hp := List.find?_some hf
    have hm := List.mem_of_find?_eq_some hf
    rw [hf] at h
    cases p with
    | mk a b =>
      simp at hp h
      rw [← hp, ← h]
      exact hm

/-- `stopTaskFields` does not rename the task, so the stop handler's map
update commutes with the registry lookup. -/
theorem findTask_map_stop (tasks : List TaskInfo) (tid : String) (now : Nat) :
    findTask (tasks.map (fun t => if t.taskId = tid then stopTaskFields now t else t)) tid
      = (findTask tasks tid).map (stopTaskFields now) := by
  induction tasks with
  | nil => rfl
  | cons t ts ih =>
    by_cases h : t.taskId = tid
    · simp only [findTask, List.map_cons, if_pos h]
      rw [List.find?_cons_of_pos _ (by simpa [stopTaskFields] using h),
          List.find?_cons_of_pos _ (by simpa using h)]
      rfl
    · simp only [findTask, List.map_cons, if_neg h]
      rw [List.find?_cons_of_neg _ (by simpa [stopTaskFields] using h),
          List.find?_cons_of_neg _ (by simpa using h)]
      exact ih

/-! ## Counting queue entries of one task -/

/-- The number of queued entries belonging to task `tid`
(what `GET /task-status` reports as `queueInfo.queued`, line 1360). -/
def pendingCount (msgs : List QueueEntry) (tid : String) : Nat :=
  (msgs.filter (fun e => decide (e.taskId = tid))).length

theorem pendingCount_cons (e : QueueEntry) (ms : List QueueEntry) (tid : String) :
    pendingCount (e :: ms) tid
      = (if e.taskId = tid then 1 else 0) + pendingCount ms tid := by
  by_cases h : e.taskId = tid <;>
    simp [pendingCount, List.filter_cons, h, Nat.add_comm]

theorem pendingCount_append (l r : List QueueEntry) (tid : String) :
    pendingCount (l ++ r) tid = pendingCount l tid + pendingCount r tid := by
  simp [pendingCount, List.filter_append]

theorem pendingCount_entriesFor (taskInfo : TaskInfo) (messages : List String)
    (delayMs : Int) :
    pendingCount (entriesFor taskInfo messages delayMs) taskInfo.taskId
      = messages.length := by
  simp [pendingCount, entriesFor, List.filter_map, Function.comp]

theorem pendingCount_eq_zero (msgs : List QueueEntry) (tid : String)
    (h : ∀ e ∈ msgs, e.taskId ≠ tid) : pendingCount msgs tid = 0 := by
  induction msgs with
  | nil => rfl
  | cons e ms ih =>
    rw [pendingCount_cons, if_neg (h e (by simp)),
        ih (fun x hx => h x (by simp [hx]))]

/-- The parsed message count equals the number of input lines that are
non-empty after trimming. -/
theorem parseMessages_length (content : String) :
    (parseMessages content).length
      = ((splitLines content).filter (fun l => decide (trimStr l ≠ ""))).length := by
  simp only [parseMessages, List.filter_map, List.length_map]
  rfl

/-! ## Helper lemmas about the loop-based executor -/

theorem runLoop_stopped (ok : Nat → Nat → Bool) (sr : Nat → Bool)
    (ms : List String) (idx : Nat) (t : TaskInfo)
    (h : t.stopRequested = true) : runLoop ok sr ms idx t = t := by
  cases ms with
  | nil => rfl
  | cons m rest =>
    cases t
    simp_all [runLoop]

theorem runLoop_sent_mono (ok : Nat → Nat → Bool) (sr : Nat → Bool) :
    ∀ (ms : List String) (idx : Nat) (t : TaskInfo),
      t.sentMessages ≤ (runLoop ok sr ms idx t).sentMessages := by
  intro ms
  induction ms with
  | nil => intro idx t; exact Nat.le_refl _
  | cons m rest ih =>
    intro idx t
    simp only [runLoop]
    split
    · exact Nat.le_refl _
    · split
      · refine Nat.le_trans ?_ (ih (idx + 1) _)
        exact Nat.le_succ _
      · refine Nat.le_trans ?_ (ih (idx + 1) _)
        exact Nat.le_succ _

theorem runLoop_sent_le (ok : Nat → Nat → Bool) (sr : Nat → Bool) :
    ∀ (ms : List String) (idx : Nat) (t : TaskInfo),
      (runLoop ok sr ms idx t).sentMessages ≤ t.sentMessages + ms.length := by
  intro ms
  induction ms with
  | nil => intro idx t; simp [runLoop]
  | cons m rest ih =>
    intro idx t
    simp only [runLoop, List.length_cons]
    split
    · exact Nat.le_add_right _ _
    · split
      · refine Nat.le_trans (ih (idx + 1) _) ?_
        show t.sentMessages + 1 + rest.length ≤ t.sentMessages + (rest.length + 1)
        omega
      · refine Nat.le_trans (ih (idx + 1) _) ?_
        show t.sentMessages + 1 + rest.length ≤ t.sentMessages + (rest.length + 1)
        omega

theorem runLoop_isSending (ok : Nat → Nat → Bool) (sr : Nat → Bool) :
    ∀ (ms : List String) (idx : Nat) (t : TaskInfo),
      (runLoop ok sr ms idx t).isSending = t.isSending := by
  intro ms
  induction ms with
  | nil => intro idx t; rfl
  | cons m rest ih =>
    intro idx t
    simp only [runLoop]
    split
    · rfl
    · split
      · exact ih (idx + 1) _
      · exact ih (idx + 1) _

theorem runLoop_stop_mono (ok : Nat → Nat → Bool) (sr : Nat → Bool) :
    ∀ (ms : List String) (idx : Nat) (t : TaskInfo),
      t.stopRequested = true → (runLoop ok sr ms idx t).stopRequested = true := by
  intro ms idx t h
  rw [runLoop_stopped ok sr ms idx t h]
  exact h

/-! ## Helper lemmas about the queue processor -/

theorem bumpTask_mem (tasks : List TaskInfo) (tid : String) (t' : TaskInfo)
    (h : t' ∈ bumpTask tasks tid) :
    ∃ t ∈ tasks, (t' = t ∨ (t.taskId = tid ∧
      t' = { t with sentMessages := t.sentMessages + 1 })) := by
  unfold bumpTask at h
  rcases List.mem_map.mp h with ⟨t, htm, hteq⟩
  refine ⟨t, htm, ?_⟩
  by_cases hid : t.taskId = tid
  · right
    rw [if_pos hid] at hteq
    exact ⟨hid, hteq.symm⟩
  · left
    rw [if_neg hid] at hteq
    exact hteq.symm

/-- The per-task accounting invariant that `queueStep` preserves: for the
task `tid`, credited sends plus still-queued entries never exceed `N`. -/
def sentBound (tid : String) (N : Nat) (s : List TaskInfo × Queue) : Prop :=
  ∀ t ∈ s.1, t.taskId = tid →
    t.sentMessages + pendingCount s.2.messages tid ≤ N

theorem queueStep_sentBound (ok : Bool) (tasks : List TaskInfo) (q : Queue)
    (tid : String) (N : Nat) (h : sentBound tid N (tasks, q)) :
    sentBound tid N (queueStep ok tasks q) := by
  unfold queueStep
  cases hm : q.messages with
  | nil => simpa [hm] using h
  | cons job rest =>
    by_cases hok : ok = true
    · -- successful send: shift the head, credit the owning task
      simp only [hok, if_true]
      intro t' ht' hid'
      rcases bumpTask_mem tasks job.taskId t' ht' with ⟨t, htm, hcase⟩
      have hbase := h t htm
      rcases hcase with rfl | ⟨hjob, rfl⟩
      · have := hbase hid'
        rw [hm, pendingCount_cons] at this
        simp only at *
        omega
      · have hid : t.taskId = tid := hid'
        have := hbase hid
        rw [hm, pendingCount_cons] at this
        have hjt : job.taskId = tid := hjob ▸ hid
        rw [if_pos hjt] at this
        simp only at *
        omega
    · -- failed send: either drop the head or only bump the retry counter
      have hok' : ok = false := by simpa using hok
      simp only [hok', Bool.false_eq_true, if_false]
      by_cases hr : q.maxRetries ≤ q.retryCount + 1
      · simp only [if_pos hr]
        intro t' ht' hid'
        have := h t' ht' hid'
        rw [hm, pendingCount_cons] at this
        simp only at *
        omega
      · simp only [if_neg hr]
        intro t' ht' hid'
        have := h t' ht' hid'
        simpa [hm] using this

theorem processQueue_sentBound (ok : Nat → Bool) (tid : String) (N : Nat) :
    ∀ (fuel : Nat) (s : List TaskInfo × Queue),
      sentBound tid N s → sentBound tid N (processQueue ok fuel s) := by
  intro fuel
  induction fuel with
  | zero => intro s h; exact h
  | succ n ih =>
    intro s h
    cases s with
    | mk tasks q =>
      simp only [processQueue]
      by_cases he : q.messages.isEmpty
      · simpa [he] using h
      · simp only [he, Bool.false_eq_true, if_false]
        exact ih _ (queueStep_sentBound (ok n) tasks q tid N h)

/-- A task's credited sends never exceed the bound `N` while the invariant
holds (the pending count is dropped). -/
theorem processQueue_sent_le (ok : Nat → Bool) (tid : String) (N : Nat)
    (fuel : Nat) (s : List TaskInfo × Queue) (h : sentBound tid N s) :
    ∀ t ∈ (processQueue ok fuel s).1, t.taskId = tid → t.sentMessages ≤ N := by
  intro t ht hid
  have := processQueue_sentBound ok tid N fuel s h t ht hid
  omega

/-! ## Helper lemmas for the all-attempts-fail run (C3) -/

theorem messageSendSucceeds_false (idx : Nat) :
    messageSendSucceeds (fun _ _ => false) idx = false := rfl

theorem runLoop_fail_stop (sr : Nat → Bool) :
    ∀ (ms : List String) (idx : Nat) (t : TaskInfo),
      t.stopRequested = false → (∀ i, sr i = false) →
      (runLoop (fun _ _ => false) sr ms idx t).stopRequested = false := by
  intro ms
  induction ms with
  | nil => intro idx t h _; exact h
  | cons m rest ih =>
    intro idx t h hsr
    simp only [runLoop, h, hsr idx, Bool.or_self, Bool.false_eq_true, if_false,
      messageSendSucceeds_false]
    exact ih (idx + 1) _ rfl hsr

theorem runLoop_fail_sent (sr : Nat → Bool) :
    ∀ (ms : List String) (idx : Nat) (t : TaskInfo),
      t.stopRequested = false → (∀ i, sr i = false) →
      (runLoop (fun _ _ => false) sr ms idx t).sentMessages
        = t.sentMessages + ms.length := by
  intro ms
  induction ms with
  | nil => intro idx t h _; simp [runLoop]
  | cons m rest ih =>
    intro idx t h hsr
    simp only [runLoop, h, hsr idx, Bool.or_self, Bool.false_eq_true, if_false,
      messageSendSucceeds_false, List.length_cons]
    rw [ih (idx + 1) _ rfl hsr]
    simp only
    omega

theorem runLoop_fail_error (sr : Nat → Bool) :
    ∀ (ms : List String) (idx : Nat) (t : TaskInfo),
      t.stopRequested = false → (∀ i, sr i = false) →
      t.error = some "Failed to send message after 3 attempts" →
      (runLoop (fun _ _ => false) sr ms idx t).error
        = some "Failed to send message after 3 attempts" := by
  intro ms
  induction ms with
  | nil => intro idx t h _ he; exact he
  | cons m rest ih =>
    intro idx t h hsr _he
    simp only [runLoop, h, hsr idx, Bool.or_self, Bool.false_eq_true, if_false,
      messageSendSucceeds_false]
    exact ih (idx + 1) _ rfl hsr rfl

/-! ## Inversion of the endpoint handlers -/

/-- A successful `POST /send-message` means every validation passed and the
result is exactly the created task plus the enqueued entries. -/
theorem sendMessage_ok_inv (st : ServerState) (sub : Submission) (now : Nat)
    (tid : String) (st' : ServerState)
    (h : sendMessage st sub now = .ok (tid, st')) :
    ∃ sid sessionInfo tgt content,
      sub.sessionId = some sid ∧
      findSession st.activeClients sid = some sessionInfo ∧
      finalTargetOf sub = some tgt ∧
      sub.fileContent = some content ∧
      (parseMessages content).isEmpty = false ∧
      (tid, st') = createTaskAndEnqueue st sid sessionInfo sub tgt content now := by
  unfold sendMessage at h
  split at h
  · exact Except.noConfusion h
  rename_i sid hsid
  split at h
  · exact Except.noConfusion h
  rename_i sessionInfo hss
  split at h
  · exact Except.noConfusion h
  rename_i hb
  split at h
  · exact Except.noConfusion h
  rename_i hr
  split at h
  · exact Except.noConfusion h
  rename_i tgt htgt
  split at h
  · exact Except.noConfusion h
  rename_i content hfc
  split at h
  · exact Except.noConfusion h
  rename_i hne
  exact ⟨sid, sessionInfo, tgt, content, hsid, hss, htgt, hfc,
    by simpa using hne, (Except.ok.inj h).symm⟩

/-- A successful `POST /stop-task` means the task was found, owned by the
caller, and the result is exactly `applyStop`. -/
theorem stopTask_ok_inv (st : ServerState) (tid uid : String) (now : Nat)
    (st' : ServerState) (h : stopTask st (some tid) (some uid) now = .ok st') :
    ∃ task, findTask st.activeTasks tid = some task ∧ task.ownerId = uid ∧
      st' = applyStop st task tid now := by
  replace h :
      (match findTask st.activeTasks tid with
        | none => Except.error ApiError.taskNotFound
        | some task =>
          if task.ownerId ≠ uid then Except.error ApiError.accessDenied
          else Except.ok (applyStop st task tid now)) = Except.ok st' := h
  cases hft : findTask st.activeTasks tid with
  | none => rw [hft] at h; exact Except.noConfusion h
  | some task =>
    rw [hft] at h
    replace h :
        (if task.ownerId ≠ uid then Except.error ApiError.accessDenied
         else Except.ok (applyStop st task tid now)) = Except.ok st' := h
    by_cases ho : task.ownerId ≠ uid
    · rw [if_pos ho] at h; exact Except.noConfusion h
    · rw [if_neg ho] at h
      exact ⟨task, rfl, not_ne_iff.mp ho, (Except.ok.inj h).symm⟩

/-! ## Claim theorems -/

/-- C9: recipient-address resolution is idempotent for both target kinds —
an address already carrying its kind's canonical suffix (`@g.us` for groups,
`@s.whatsapp.net` otherwise) is returned unchanged, and resolving twice
equals resolving once. -/
theorem C9_resolution_idempotent :
    (∀ u : String, resolveRecipient "group" (u ++ "@g.us") = u ++ "@g.us") ∧
    (∀ u : String,
      resolveRecipient "individual" (u ++ "@s.whatsapp.net")
        = u ++ "@s.whatsapp.net") ∧
    (∀ targetType target : String,
      resolveRecipient targetType (resolveRecipient targetType target)
        = resolveRecipient targetType target) := by
  refine ⟨?_, ?_, ?_⟩
  · intro u
    simp [resolveRecipient, strIncludes_append_self]
  · intro u
    simp [resolveRecipient, strIncludes_append_self]
  · intro tt t
    by_cases hg : tt = "group"
    · subst hg
      by_cases hc : strIncludes t "@g.us"
      · simp [resolveRecipient, hc]
      · simp [resolveRecipient, hc, strIncludes_append_self]
    · by_cases hc : strIncludes t "@s.whatsapp.net"
      · simp [resolveRecipient, hg, hc]
      · simp [resolveRecipient, hg, hc, strIncludes_append_self]

/-- Helper for C5: once the stop flag is up (from elapsed time `s` on), the
delay loop exits within one further chunk, and never after the configured
number of chunks. -/
theorem delayLoop_exit_bound (s : Nat) :
    ∀ (n e : Nat), delayLoop (fun x => decide (s ≤ x)) n e ≤ max e (s + chunkSizeMs) := by
  intro n
  induction n with
  | zero => intro e; simp [delayLoop]
  | succ k ih =>
    intro e
    simp only [delayLoop]
    by_cases hs : s ≤ e
    · simp [hs]
    · have he : e < s := Nat.lt_of_not_le hs
      simp only [decide_eq_true_eq, hs, if_false]
      refine Nat.le_trans (ih (e + chunkSizeMs)) ?_
      have h1 : e + chunkSizeMs ≤ s + chunkSizeMs := by omega
      exact Nat.max_le.mpr
        ⟨Nat.le_trans h1 (Nat.le_max_right _ _), Nat.le_max_right _ _⟩

theorem delayLoop_le_chunks (stopped : Nat → Bool) :
    ∀ (n e : Nat), delayLoop stopped n e ≤ e + n * chunkSizeMs := by
  intro n
  induction n with
  | zero => intro e; simp [delayLoop]
  | succ k ih =>
    intro e
    simp only [delayLoop]
    by_cases hs : stopped e = true
    · simp only [hs, if_true]
      exact Nat.le_add_right _ _
    · simp only [hs, if_false]
      refine Nat.le_trans (ih (e + chunkSizeMs)) ?_
      have : (k + 1) * chunkSizeMs = k * chunkSizeMs + chunkSizeMs := by ring
      omega

/-- C5 (amended): the inter-message delay of the loop-based executor is split
into `chunkSizeMs = 1000` ms chunks with the stop flag checked before each
chunk, so a stop requested at elapsed time `s` ends the wait by `s + 1000`
ms (one polling interval), and the wait never exceeds the configured
`chunks * 1000` ms. -/
theorem C5_chunked_delay_bound (s chunks : Nat) :
    delayLoop (fun e => decide (s ≤ e)) chunks 0 ≤ s + chunkSizeMs ∧
    delayLoop (fun e => decide (s ≤ e)) chunks 0 ≤ chunks * chunkSizeMs := by
  constructor
  · simpa using delayLoop_exit_bound s chunks 0
  · simpa using delayLoop_le_chunks (fun e => decide (s ≤ e)) chunks 0

/-- C5 (counterexample to the claim as stated): the polling interval is
exactly `1000` ms — not sub-second — and a stop requested 1 ms into a 5 s
delay is only observed at elapsed time 1000 ms, the first chunk boundary:
the flag is polled once per second, never at a sub-second instant. -/
theorem C5_counterexample :
    chunkSizeMs = 1000 ∧ ¬ chunkSizeMs < 1000 ∧ waitChunks 5000 = 5 ∧
    delayLoop (fun e => decide (1 ≤ e)) (waitChunks 5000) 0 = 1000 := by
  refine ⟨rfl, by decide, rfl, by decide⟩

/-- Concrete task for the C3 run: freshly created, two messages. -/
def c3Task : TaskInfo :=
  { taskId := "TASK_9", sessionId := "s1", ownerId := "alice", isSending := true
    stopRequested := false, totalMessages := 2, sentMessages := 0
    target := "123", targetType := "individual", pfx := "" }

/-- The C3 run: every transport attempt fails from the very first send on,
no stop is ever requested. -/
def c3Run : TaskInfo :=
  executeTask (fun _ _ => false) (fun _ => false) ["a", "b"] 9 c3Task

/-- C3 (counterexample to the claim as stated): when the transport fails
every attempt starting with the very first send, the loop-based executor
does not stop and no `Failed` state exists — after 3 failed attempts it
records the error, counts the first message as attempted
(`sentMessages++`, index.js line 287), advances to the second message, and
the `finally` block marks the task completed: final `sentMessages = 2`
(not 0) and `completed = true`. -/
theorem C3_counterexample :
    c3Run.sentMessages = 2 ∧ c3Run.completed = true ∧
    c3Run.error = some "Failed to send message after 3 attempts" ∧
    c3Run.isSending = false := by
  refine ⟨by decide, by decide, by decide, by decide⟩

/-- C3 (amended): if every send attempt fails, each message is retried
`maxSendAttempts = 3` times, then `lastError` is recorded and the message is
counted as attempted; the loop advances through all messages and the task
ends `completed` (there is no `Failed` state), with
`sentMessages = totalMessages` worth of attempted messages added. -/
theorem C3_all_sends_fail (msgs : List String) (now : Nat) (t : TaskInfo)
    (hstop : t.stopRequested = false) :
    (executeTask (fun _ _ => false) (fun _ => false) msgs now t).sentMessages
        = t.sentMessages + msgs.length ∧
    (executeTask (fun _ _ => false) (fun _ => false) msgs now t).completed = true ∧
    (executeTask (fun _ _ => false) (fun _ => false) msgs now t).isSending = false ∧
    (msgs ≠ [] →
      (executeTask (fun _ _ => false) (fun _ => false) msgs now t).error
        = some "Failed to send message after 3 attempts") := by
  have hsr : ∀ i, (fun _ : Nat => false) i = false := fun _ => rfl
  have hsent := runLoop_fail_sent (fun _ => false) msgs 0 t hstop hsr
  have hstop' := runLoop_fail_stop (fun _ => false) msgs 0 t hstop hsr
  refine ⟨?_, ?_, ?_, ?_⟩
  · simpa [executeTask, finishTask] using hsent
  · simp [executeTask, finishTask, hstop']
  · simp [executeTask, finishTask]
  · intro hne
    cases msgs with
    | nil => exact absurd rfl hne
    | cons m rest =>
      have herr : (runLoop (fun _ _ => false) (fun _ => false) (m :: rest) 0 t).error
          = some "Failed to send message after 3 attempts" := by
        simp only [runLoop, hstop, hsr 0, Bool.or_self, Bool.false_eq_true, if_false,
          messageSendSucceeds_false]
        exact runLoop_fail_error (fun _ => false) rest 1 _ rfl hsr rfl
      simpa [executeTask, finishTask] using herr

/-- Concrete running task for the C4 scenario. -/
def c4Task : TaskInfo :=
  { taskId := "TASK_4", sessionId := "s1", ownerId := "alice", isSending := true
    stopRequested := false, totalMessages := 3, sentMessages := 1
    target := "123", targetType := "individual", pfx := "" }

/-- The C4 scenario: the stop handler runs at time 5 while two messages
remain, then the execution loop observes the flag and its `finally` block
runs at time 9. -/
def c4Run : TaskInfo :=
  executeTask (fun _ _ => true) (fun _ => false) ["b", "c"] 9 (stopTaskFields 5 c4Task)

/-- C4 (counterexample to the claim as stated): after a `requestStop` on a
running task, the status query reports the task as "completed" — no
"stopped" value exists in `GET /task-status` responses (the stop handler
sets `isSending = false`, and line 1353 maps `isSending = false` to
"completed") — and `endTime` is written twice: once by the stop handler
(line 1392) and once by the loop's `finally` block (line 307). -/
theorem C4_counterexample :
    statusString c4Run = "completed" ∧ c4Run.endTimeWrites = 2 ∧
    c4Run.sentMessages = 1 ∧ c4Run.endTime = some 9 := by
  refine ⟨by decide, by decide, by decide, by decide⟩

/-- C4 (amended): a `requestStop` on a running task makes the execution loop
exit without sending anything further (the task never resumes), after which
the status query reports "completed" — there is no `Stopped` value — and
`endTime` has been written exactly twice, once by the stop handler and once
by the loop's `finally` block. -/
theorem C4_stop_terminates (ok : Nat → Nat → Bool) (sr : Nat → Bool)
    (msgs : List String) (now₁ now₂ : Nat) (t : TaskInfo)
    (hw : t.endTimeWrites = 0) :
    (executeTask ok sr msgs now₂ (stopTaskFields now₁ t)).sentMessages
        = t.sentMessages ∧
    statusString (executeTask ok sr msgs now₂ (stopTaskFields now₁ t))
        = "completed" ∧
    (executeTask ok sr msgs now₂ (stopTaskFields now₁ t)).endTimeWrites = 2 ∧
    (executeTask ok sr msgs now₂ (stopTaskFields now₁ t)).isSending = false ∧
    (executeTask ok sr msgs now₂ (stopTaskFields now₁ t)).stopRequested = true := by
  have hs : (stopTaskFields now₁ t).stopRequested = true := rfl
  have hrun := runLoop_stopped ok sr msgs 0 (stopTaskFields now₁ t) hs
  refine ⟨?_, ?_, ?_, ?_, ?_⟩
  · simp only [executeTask]
    rw [hrun]
    simp [finishTask, stopTaskFields]
  · simp only [executeTask]
    rw [hrun]
    simp [finishTask, statusString]
  · simp only [executeTask]
    rw [hrun]
    simp [finishTask, stopTaskFields, hw]
  · simp [executeTask, finishTask]
  · simp only [executeTask]
    rw [hrun]
    simp [finishTask, stopTaskFields]

/-- Concrete task and state for the C1 scenario: a running task owned by
"alice". -/
def c1Task : TaskInfo :=
  { taskId := "TASK_1", sessionId := "s1", ownerId := "alice", isSending := true
    stopRequested := false, totalMessages := 3, sentMessages := 1
    target := "123", targetType := "individual", pfx := "" }

def c1St : ServerState :=
  { activeClients := [], activeTasks := [c1Task], messageQueues := [] }

/-- C1 (counterexample to the claim as stated): the status query
(`GET /task-status`, index.js lines 1341-1370) takes no ownerId at all and
performs no ownership check — for a task owned by "alice" it answers with
the full progress to any caller (here a caller presenting "bob", or nobody),
instead of returning `Forbidden` on an ownership mismatch. -/
theorem C1_counterexample :
    c1Task.ownerId = "alice" ∧ ("bob" : String) ≠ "alice" ∧
    taskStatus c1St (some "TASK_1") =
      .ok { taskId := "TASK_1", status := "sending", sent := 1, total := 3,
            percentage := 33, queuedForTask := none, processing := none } := by
  refine ⟨rfl, by decide, rfl⟩

/-- C1 (amended): `POST /stop-task` with an ownerId different from the
task's owner always returns `Forbidden` (`accessDenied`), whatever state the
task is in, producing no new state (no mutation); the status query performs
no ownership check — for any registered task it returns the task's status
and progress, with no caller identity involved. -/
theorem C1_ownership :
    (∀ (st : ServerState) (tid uid : String) (now : Nat) (task : TaskInfo),
      findTask st.activeTasks tid = some task → task.ownerId ≠ uid →
      stopTask st (some tid) (some uid) now = .error .accessDenied) ∧
    (∀ (st : ServerState) (tid : String) (task : TaskInfo),
      findTask st.activeTasks tid = some task →
      ∃ r, taskStatus st (some tid) = .ok r ∧ r.sent = task.sentMessages ∧
        r.status = statusString task) := by
  constructor
  · intro st tid uid now task hft hne
    have core : (match findTask st.activeTasks tid with
        | none => Except.error ApiError.taskNotFound
        | some task =>
          if task.ownerId ≠ uid then Except.error ApiError.accessDenied
          else Except.ok (applyStop st task tid now))
        = (Except.error ApiError.accessDenied :
            Except ApiError ServerState) := by
      rw [hft]
      exact if_pos hne
    exact core
  · intro st tid task hft
    have core : (match findTask st.activeTasks tid with
        | none => Except.error ApiError.taskNotFound
        | some task =>
          let q := lookupQueue st.messageQueues task.sessionId
          Except.ok { taskId := task.taskId
                      status := statusString task
                      sent := task.sentMessages
                      total := task.totalMessages
                      percentage := jsRoundPercent task.sentMessages task.totalMessages
                      queuedForTask := q.map (fun q =>
                        (q.messages.filter (fun e => decide (e.taskId = tid))).length)
                      processing := q.map (fun q => q.isProcessing) })
        = (Except.ok { taskId := task.taskId
                       status := statusString task
                       sent := task.sentMessages
                       total := task.totalMessages
                       percentage := jsRoundPercent task.sentMessages task.totalMessages
                       queuedForTask := (lookupQueue st.messageQueues task.sessionId).map
                         (fun q => (q.messages.filter (fun e => decide (e.taskId = tid))).length)
                       processing := (lookupQueue st.messageQueues task.sessionId).map
                         (fun q => q.isProcessing) } :
            Except ApiError StatusResponse) := by
      rw [hft]
    exact ⟨_, core, rfl, rfl⟩

/-- Witness for `C1_ownership` at a concrete state: "bob" is denied the stop
of "alice"'s task, while the status query answers without any ownership
check. -/
theorem C1_ownership_witness :
    findTask c1St.activeTasks "TASK_1" = some c1Task ∧
    c1Task.ownerId ≠ "bob" ∧
    stopTask c1St (some "TASK_1") (some "bob") 5 = .error .accessDenied ∧
    (∃ r, taskStatus c1St (some "TASK_1") = .ok r ∧ r.sent = c1Task.sentMessages ∧
      r.status = statusString c1Task) :=
  ⟨rfl, by decide, C1_ownership.1 c1St "TASK_1" "bob" 5 c1Task rfl (by decide),
    C1_ownership.2 c1St "TASK_1" c1Task rfl⟩

/-- Concrete data for the C7 scenario: a running task "T1" owned by "alice"
whose session queue also holds an entry of another task "T2". -/
def c7Entry1 : QueueEntry :=
  { text := "a", recipient := "r", taskId := "T1", delayMs := 1000 }

def c7Entry2 : QueueEntry :=
  { text := "b", recipient := "r", taskId := "T2", delayMs := 1000 }

def c7Task : TaskInfo :=
  { taskId := "T1", sessionId := "s1", ownerId := "alice", isSending := true
    stopRequested := false, totalMessages := 1, sentMessages := 0
    target := "9", targetType := "individual", pfx := "" }

def c7St : ServerState :=
  { activeClients := [], activeTasks := [c7Task]
    messageQueues := [("s1", { messages := [c7Entry1, c7Entry2] })] }

/-- The state after the first stop (at time 10). -/
def c7St1 : ServerState :=
  { activeClients := [], activeTasks := [stopTaskFields 10 c7Task]
    messageQueues := [("s1", { messages := [c7Entry2] })] }

/-- The state after the second stop (at time 20). -/
def c7St2 : ServerState :=
  { activeClients := [], activeTasks := [stopTaskFields 20 (stopTaskFields 10 c7Task)]
    messageQueues := [("s1", { messages := [c7Entry2] })] }

/-- C7 (counterexample to the claim as stated): a second `POST /stop-task`
on the same task succeeds, but it is not a no-op — the handler
unconditionally reassigns `task.endTime = new Date()` (index.js line 1392;
there is no terminal-state check), so the second call at a later time
changes the task's state: `endTime` moves from 10 to 20. -/
theorem C7_counterexample :
    stopTask c7St (some "T1") (some "alice") 10 = .ok c7St1 ∧
    stopTask c7St1 (some "T1") (some "alice") 20 = .ok c7St2 ∧
    c7St2 ≠ c7St1 ∧
    (findTask c7St1.activeTasks "T1").map (fun t => t.endTime) = some (some 10) ∧
    (findTask c7St2.activeTasks "T1").map (fun t => t.endTime) = some (some 20) := by
  refine ⟨rfl, rfl, by decide, rfl, rfl⟩

/-- C7 (amended): a second `requestStop` on the same task succeeds without
error, and it changes nothing except `endTime` (re-stamped to the time of
the second call) and the write counter: `stopRequested`, `isSending` and
`sentMessages` are unchanged, and filtering the queue a second time is a
no-op.  There is no terminal-state check in the handler. -/
theorem C7_stop_idempotent :
    (∀ (st st' : ServerState) (tid uid : String) (now₁ now₂ : Nat),
      stopTask st (some tid) (some uid) now₁ = .ok st' →
      ∃ st'', stopTask st' (some tid) (some uid) now₂ = .ok st'') ∧
    (∀ (t : TaskInfo) (now₁ now₂ : Nat),
      (stopTaskFields now₂ (stopTaskFields now₁ t)).stopRequested
          = (stopTaskFields now₁ t).stopRequested ∧
      (stopTaskFields now₂ (stopTaskFields now₁ t)).isSending
          = (stopTaskFields now₁ t).isSending ∧
      (stopTaskFields now₂ (stopTaskFields now₁ t)).sentMessages
          = (stopTaskFields now₁ t).sentMessages ∧
      (stopTaskFields now₂ (stopTaskFields now₁ t)).endTime = some now₂) ∧
    (∀ (q : Queue) (tid : String),
      filterQueueMessages (filterQueueMessages q tid) tid
        = filterQueueMessages q tid) := by
  refine ⟨?_, ?_, ?_⟩
  · intro st st' tid uid now₁ now₂ h
    obtain ⟨task, hft, howner, rfl⟩ := stopTask_ok_inv st tid uid now₁ st' h
    refine ⟨applyStop (applyStop st task tid now₁) (stopTaskFields now₁ task) tid now₂, ?_⟩
    have hft' : findTask (applyStop st task tid now₁).activeTasks tid
        = some (stopTaskFields now₁ task) := by
      show findTask (st.activeTasks.map
        (fun t => if t.taskId = tid then stopTaskFields now₁ t else t)) tid
          = some (stopTaskFields now₁ task)
      rw [findTask_map_stop, hft]
      rfl
    have hown' : ¬ (stopTaskFields now₁ task).ownerId ≠ uid := by
      simp [stopTaskFields, howner]
    have core : (match findTask (applyStop st task tid now₁).activeTasks tid with
        | none => Except.error ApiError.taskNotFound
        | some task2 =>
          if task2.ownerId ≠ uid then Except.error ApiError.accessDenied
          else Except.ok (applyStop (applyStop st task tid now₁) task2 tid now₂))
        = Except.ok
            (applyStop (applyStop st task tid now₁) (stopTaskFields now₁ task) tid now₂) := by
      rw [hft']
      exact if_neg hown'
    exact core
  · intro t now₁ now₂
    exact ⟨rfl, rfl, rfl, rfl⟩
  · intro q tid
    simp [filterQueueMessages, List.filter_filter]

/-- Witness for `C7_stop_idempotent` at the concrete C7 scenario. -/
theorem C7_stop_idempotent_witness :
    stopTask c7St (some "T1") (some "alice") 10 = .ok c7St1 ∧
    (∃ st'', stopTask c7St1 (some "T1") (some "alice") 20 = .ok st'') :=
  ⟨rfl, C7_stop_idempotent.1 c7St c7St1 "T1" "alice" 10 20 rfl⟩

/-- C10: a successful `POST /stop-task` mutates the stopped task's session
queue only by removing exactly the entries whose `taskId` equals the stopped
task's id — the remaining list is the filter of the old one, it contains no
entry of the stopped task, it is a sublist of the old queue (original
relative order), every entry of another task survives, and the queues of all
other sessions are untouched. -/
theorem C10_stop_queue_frame (st : ServerState) (tid uid : String) (now : Nat)
    (st' : ServerState) (task : TaskInfo) (q q' : Queue)
    (h : stopTask st (some tid) (some uid) now = .ok st')
    (hft : findTask st.activeTasks tid = some task)
    (hq : lookupQueue st.messageQueues task.sessionId = some q)
    (hq' : lookupQueue st'.messageQueues task.sessionId = some q') :
    q'.messages = q.messages.filter (fun e => decide (e.taskId ≠ tid)) ∧
    (∀ e ∈ q'.messages, e.taskId ≠ tid) ∧
    List.Sublist q'.messages q.messages ∧
    (∀ e ∈ q.messages, e.taskId ≠ tid → e ∈ q'.messages) ∧
    (∀ sid, sid ≠ task.sessionId →
      lookupQueue st'.messageQueues sid = lookupQueue st.messageQueues sid) := by
  obtain ⟨task0, hft0, _hown, hst'⟩ := stopTask_ok_inv st tid uid now st' h
  rw [hft] at hft0
  obtain rfl : task = task0 := Option.some.inj hft0
  subst hst'
  have hQs : (applyStop st task tid now).messageQueues
      = setQueue st.messageQueues task.sessionId (filterQueueMessages q tid) := by
    show (match lookupQueue st.messageQueues task.sessionId with
          | none => st.messageQueues
          | some q0 => setQueue st.messageQueues task.sessionId (filterQueueMessages q0 tid))
        = setQueue st.messageQueues task.sessionId (filterQueueMessages q tid)
    rw [hq]
  rw [hQs] at hq'
  have hsome := lookupQueue_setQueue_self st.messageQueues task.sessionId
    (filterQueueMessages q tid) q hq
  rw [hsome] at hq'
  obtain rfl : filterQueueMessages q tid = q' := Option.some.inj hq'
  refine ⟨rfl, ?_, ?_, ?_, ?_⟩
  · intro e he
    have := (List.mem_filter.mp he).2
    simpa using this
  · exact List.filter_sublist _
  · intro e he hne
    exact List.mem_filter.mpr ⟨he, by simpa using hne⟩
  · intro sid hsid
    rw [hQs]
    exact lookupQueue_setQueue_ne st.messageQueues task.sessionId sid
      (filterQueueMessages q tid) hsid

/-- Concrete data for the C10 witness: the session queue holds three
entries, two of task "T1" and one of task "T2". -/
def c10E1 : QueueEntry :=
  { text := "a", recipient := "r", taskId := "T1", delayMs := 0 }

def c10E2 : QueueEntry :=
  { text := "b", recipient := "r", taskId := "T2", delayMs := 0 }

def c10E3 : QueueEntry :=
  { text := "c", recipient := "r", taskId := "T1", delayMs := 0 }

def c10Task : TaskInfo :=
  { taskId := "T1", sessionId := "s1", ownerId := "alice", isSending := true
    stopRequested := false, totalMessages := 2, sentMessages := 0
    target := "9", targetType := "individual", pfx := "" }

def c10Q : Queue := { messages := [c10E1, c10E2, c10E3] }

def c10St : ServerState :=
  { activeClients := [], activeTasks := [c10Task]
    messageQueues := [("s1", c10Q)] }

def c10Q' : Queue := { messages := [c10E2] }

def c10St' : ServerState :=
  { activeClients := [], activeTasks := [stopTaskFields 6 c10Task]
    messageQueues := [("s1", c10Q')] }

/-- Witness for `C10_stop_queue_frame` at the concrete scenario: stopping
"T1" leaves exactly the "T2" entry, in place. -/
theorem C10_stop_queue_frame_witness :
    stopTask c10St (some "T1") (some "alice") 6 = .ok c10St' ∧
    findTask c10St.activeTasks "T1" = some c10Task ∧
    lookupQueue c10St.messageQueues c10Task.sessionId = some c10Q ∧
    lookupQueue c10St'.messageQueues c10Task.sessionId = some c10Q' ∧
    (c10Q'.messages = c10Q.messages.filter (fun e => decide (e.taskId ≠ "T1")) ∧
     (∀ e ∈ c10Q'.messages, e.taskId ≠ "T1") ∧
     List.Sublist c10Q'.messages c10Q.messages ∧
     (∀ e ∈ c10Q.messages, e.taskId ≠ "T1" → e ∈ c10Q'.messages) ∧
     (∀ sid, sid ≠ c10Task.sessionId →
       lookupQueue c10St'.messageQueues sid = lookupQueue c10St.messageQueues sid)) :=
  ⟨rfl, rfl, rfl, rfl,
    C10_stop_queue_frame c10St "T1" "alice" 6 c10St' c10Task c10Q c10Q'
      rfl rfl rfl rfl⟩

/-- C8: every embedded operation that mutates a task preserves the
invariants — `sentMessages` is non-decreasing, and the transitions are
one-directional: `isSending` is never turned back on (the loop body never
touches it; the `finally` block and the stop handler only clear it), a
`stopRequested = true` flag is never cleared, and the queue processor's
progress update only increments `sentMessages` of the owning task. -/
theorem C8_monotone_one_directional :
    (∀ (ok : Nat → Nat → Bool) (sr : Nat → Bool) (ms : List String) (idx : Nat)
       (t : TaskInfo),
      t.sentMessages ≤ (runLoop ok sr ms idx t).sentMessages ∧
      (runLoop ok sr ms idx t).isSending = t.isSending ∧
      (t.stopRequested = true → (runLoop ok sr ms idx t).stopRequested = true)) ∧
    (∀ (now : Nat) (t : TaskInfo),
      t.sentMessages ≤ (finishTask now t).sentMessages ∧
      (finishTask now t).isSending = false ∧
      (finishTask now t).stopRequested = t.stopRequested) ∧
    (∀ (now : Nat) (t : TaskInfo),
      t.sentMessages ≤ (stopTaskFields now t).sentMessages ∧
      (stopTaskFields now t).isSending = false ∧
      (stopTaskFields now t).stopRequested = true) ∧
    (∀ (ok : Bool) (tasks : List TaskInfo) (q : Queue),
      ∀ t' ∈ (queueStep ok tasks q).1, ∃ t ∈ tasks,
        t.sentMessages ≤ t'.sentMessages ∧ t'.isSending = t.isSending ∧
        t'.stopRequested = t.stopRequested) := by
  refine ⟨?_, ?_, ?_, ?_⟩
  · intro ok sr ms idx t
    exact ⟨runLoop_sent_mono ok sr ms idx t, runLoop_isSending ok sr ms idx t,
      runLoop_stop_mono ok sr ms idx t⟩
  · intro now t
    exact ⟨Nat.le_refl _, rfl, rfl⟩
  · intro now t
    exact ⟨Nat.le_refl _, rfl, rfl⟩
  · intro ok tasks q t' ht'
    unfold queueStep at ht'
    cases hm : q.messages with
    | nil =>
      rw [hm] at ht'
      exact ⟨t', ht', Nat.le_refl _, rfl, rfl⟩
    | cons job rest =>
      rw [hm] at ht'
      replace ht' : t' ∈ (if ok = true then
          (bumpTask tasks job.taskId, (⟨rest, q.isProcessing, 0, q.maxRetries⟩ : Queue))
        else
          if q.maxRetries ≤ q.retryCount + 1 then
            (tasks, (⟨rest, q.isProcessing, 0, q.maxRetries⟩ : Queue))
          else
            (tasks, (⟨job :: rest, q.isProcessing, q.retryCount + 1,
              q.maxRetries⟩ : Queue))).1 := ht'
      by_cases hok : ok = true
      · rw [if_pos hok] at ht'
        rcases bumpTask_mem tasks job.taskId t' ht' with ⟨t, htm, hcase⟩
        rcases hcase with rfl | ⟨_hjob, rfl⟩
        · exact ⟨t', htm, Nat.le_refl _, rfl, rfl⟩
        · exact ⟨t, htm, Nat.le_succ _, rfl, rfl⟩
      · rw [if_neg hok] at ht'
        by_cases hr : q.maxRetries ≤ q.retryCount + 1
        · rw [if_pos hr] at ht'
          exact ⟨t', ht', Nat.le_refl _, rfl, rfl⟩
        · rw [if_neg hr] at ht'
          exact ⟨t', ht', Nat.le_refl _, rfl, rfl⟩

/-- Concrete data for the C8 witness. -/
def c8Task : TaskInfo :=
  { taskId := "T8", sessionId := "s8", ownerId := "alice", isSending := true
    stopRequested := true, totalMessages := 2, sentMessages := 1
    target := "9", targetType := "individual", pfx := "" }

def c8Queue : Queue :=
  { messages := [{ text := "x", recipient := "r", taskId := "T8", delayMs := 0 }] }

/-- The task after the queue processor credits one send. -/
def c8Bumped : TaskInfo := { c8Task with sentMessages := c8Task.sentMessages + 1 }

/-- Witness for `C8_monotone_one_directional` at concrete inputs: the
already-stopped flag survives a loop run, and the queue-step result task is
accounted for by the original. -/
theorem C8_monotone_one_directional_witness :
    c8Task.stopRequested = true ∧
    (runLoop (fun _ _ => true) (fun _ => false) ["a"] 0 c8Task).stopRequested = true ∧
    c8Bumped ∈ (queueStep true [c8Task] c8Queue).1 ∧
    (∃ t ∈ [c8Task], t.sentMessages ≤ c8Bumped.sentMessages ∧
      c8Bumped.isSending = t.isSending ∧ c8Bumped.stopRequested = t.stopRequested) :=
  ⟨rfl,
    ((C8_monotone_one_directional.1 (fun _ _ => true) (fun _ => false) ["a"] 0 c8Task).2.2) rfl,
    by decide,
    C8_monotone_one_directional.2.2.2 true [c8Task] c8Queue c8Bumped (by decide)⟩

/-- Concrete data for the C6 scenario: a fully valid submission except that
`delaySec` is negative. -/
def c6Session : SessionInfo :=
  { sessionId := "s1", ownerId := "alice", registered := true, isConnecting := false }

def c6St : ServerState :=
  { activeClients := [c6Session], activeTasks := [], messageQueues := [] }

def c6Sub : Submission :=
  { sessionId := some "s1", target := some "123", targetType := some "individual"
    delaySec := some (-5), userPfx := none, userId := some "alice"
    groupId := none, fileContent := some "hi\nyo" }

/-- What the handler creates for `c6Sub` at `Date.now() = 3`. -/
def c6TaskAfter : TaskInfo :=
  { taskId := "TASK_3", sessionId := "s1", ownerId := "alice", isSending := true
    stopRequested := false, totalMessages := 2, sentMessages := 0
    target := "123", targetType := "individual", pfx := "" }

def c6StAfter : ServerState :=
  { activeClients := [c6Session], activeTasks := [c6TaskAfter]
    messageQueues := [("s1",
      { messages :=
          [{ text := "hi", recipient := "123@s.whatsapp.net", taskId := "TASK_3",
             delayMs := -5000 },
           { text := "yo", recipient := "123@s.whatsapp.net", taskId := "TASK_3",
             delayMs := -5000 }] })] }

/-- C6 (counterexample to the claim as stated): a submission with a negative
delay is not rejected — neither variant of `POST /send-message` ever
compares `delaySec` with 0 (variant 1's `!delaySec` at line 141 only catches
a missing/empty field, and variant 2 has no check at all) — so the task is
created and enqueued with `delayMs = -5000`. -/
theorem C6_counterexample :
    c6Sub.delaySec = some (-5) ∧ (-5 : Int) < 0 ∧
    sendMessage c6St c6Sub 3 = .ok ("TASK_3", c6StAfter) ∧
    c6StAfter.activeTasks = [c6TaskAfter] := by
  refine ⟨rfl, by decide, rfl, rfl⟩

/-- C6 (amended): a submission whose uploaded file is missing or parses to
an empty message list, or whose target is missing, is rejected synchronously
with an error — the handler returns before `activeTasks` or `messageQueues`
is touched, so no task is created; a negative delay is not validated. -/
theorem C6_validation :
    (∀ (st : ServerState) (sub : Submission) (now : Nat),
      sub.fileContent = none → ∃ e, sendMessage st sub now = .error e) ∧
    (∀ (st : ServerState) (sub : Submission) (now : Nat) (content : String),
      sub.fileContent = some content → parseMessages content = [] →
      ∃ e, sendMessage st sub now = .error e) ∧
    (∀ (st : ServerState) (sub : Submission) (now : Nat),
      finalTargetOf sub = none → ∃ e, sendMessage st sub now = .error e) := by
  refine ⟨?_, ?_, ?_⟩
  · intro st sub now hfc
    cases hres : sendMessage st sub now with
    | error e => exact ⟨e, rfl⟩
    | ok p =>
      obtain ⟨tid, st'⟩ := p
      obtain ⟨sid, si, tgt, content, _, _, _, hfc', _, _⟩ :=
        sendMessage_ok_inv st sub now tid st' hres
      rw [hfc] at hfc'
      exact Option.noConfusion hfc'
  · intro st sub now content hfc hpm
    cases hres : sendMessage st sub now with
    | error e => exact ⟨e, rfl⟩
    | ok p =>
      obtain ⟨tid, st'⟩ := p
      obtain ⟨sid, si, tgt, content', _, _, _, hfc', hne, _⟩ :=
        sendMessage_ok_inv st sub now tid st' hres
      rw [hfc] at hfc'
      obtain rfl : content = content' := Option.some.inj hfc'
      rw [hpm] at hne
      exact Bool.noConfusion hne
  · intro st sub now htgt
    cases hres : sendMessage st sub now with
    | error e => exact ⟨e, rfl⟩
    | ok p =>
      obtain ⟨tid, st'⟩ := p
      obtain ⟨sid, si, tgt, content, _, _, htgt', _, _, _⟩ :=
        sendMessage_ok_inv st sub now tid st' hres
      rw [htgt] at htgt'
      exact Option.noConfusion htgt'

/-- Submissions for the C6 witness: a message file with only blank lines,
and a submission with no target at all. -/
def c6wSubEmpty : Submission :=
  { sessionId := some "s1", target := some "123", targetType := some "individual"
    delaySec := some 2, userPfx := none, userId := none, groupId := none
    fileContent := some "\n \n" }

def c6wSubNoTarget : Submission :=
  { sessionId := some "s1", target := none, targetType := some "individual"
    delaySec := some 2, userPfx := none, userId := none, groupId := none
    fileContent := some "hi" }

/-- Witness for `C6_validation` at concrete inputs. -/
theorem C6_validation_witness :
    c6wSubEmpty.fileContent = some "\n \n" ∧ parseMessages "\n \n" = [] ∧
    (∃ e, sendMessage c6St c6wSubEmpty 4 = .error e) ∧
    finalTargetOf c6wSubNoTarget = none ∧
    (∃ e, sendMessage c6St c6wSubNoTarget 4 = .error e) :=
  ⟨rfl, by decide, C6_validation.2.1 c6St c6wSubEmpty 4 "\n \n" rfl (by decide),
    rfl, C6_validation.2.2 c6St c6wSubNoTarget 4 rfl⟩

/-! ## The queue created or extended by a successful submission -/

theorem createTaskAndEnqueue_lookup_none (st : ServerState) (sid : String)
    (si : SessionInfo) (sub : Submission) (tgt content : String) (now : Nat)
    (hlk : lookupQueue st.messageQueues sid = none) :
    lookupQueue (createTaskAndEnqueue st sid si sub tgt content now).2.messageQueues sid
      = some { messages := (entriesFor
                 (buildTaskInfo sid si sub tgt (parseMessages content).length now)
                 (parseMessages content)
                 (match sub.delaySec with | some d => d * 1000 | none => 0))
               isProcessing := false, retryCount := 0, maxRetries := 3 } := by
  unfold createTaskAndEnqueue
  simp only [hlk, Option.isSome_none, Bool.false_eq_true, if_false,
    Option.getD_none, List.nil_append]
  exact lookupQueue_append_single_self st.messageQueues sid _ hlk

theorem createTaskAndEnqueue_lookup_some (st : ServerState) (sid : String)
    (si : SessionInfo) (sub : Submission) (tgt content : String) (now : Nat)
    (q0 : Queue) (hlk : lookupQueue st.messageQueues sid = some q0) :
    lookupQueue (createTaskAndEnqueue st sid si sub tgt content now).2.messageQueues sid
      = some { q0 with messages := (q0.messages ++ entriesFor
                 (buildTaskInfo sid si sub tgt (parseMessages content).length now)
                 (parseMessages content)
                 (match sub.delaySec with | some d => d * 1000 | none => 0)) } := by
  unfold createTaskAndEnqueue
  simp only [hlk, Option.isSome_some, if_true, Option.getD_some]
  exact lookupQueue_setQueue_self st.messageQueues sid _ q0 hlk

/-- C2: for every accepted submission, the created task's `totalMessages`
equals the number of uploaded lines that are non-empty after trimming, the
task starts with `sentMessages = 0`, and as the queue processor runs (any
send outcomes, any number of steps) every snapshot of the task satisfies
`sentMessages ≤ totalMessages`; in the loop-based executor, a run over `ms`
messages likewise adds at most `ms.length` to `sentMessages`.  The
freshness hypotheses say the generated task id is not already in use, which
`TASK_${Date.now()}` is meant to guarantee. -/
theorem C2_total_and_sent_bound :
    (∀ (st : ServerState) (sub : Submission) (now : Nat) (content : String)
       (tid : String) (st' : ServerState),
      sub.fileContent = some content →
      sendMessage st sub now = .ok (tid, st') →
      (∀ t ∈ st.activeTasks, t.taskId ≠ tid) →
      (∀ sid q, (sid, q) ∈ st.messageQueues → ∀ e ∈ q.messages, e.taskId ≠ tid) →
      ∃ task,
        st'.activeTasks = st.activeTasks ++ [task] ∧
        task.taskId = tid ∧
        task.sentMessages = 0 ∧
        task.totalMessages
          = ((splitLines content).filter (fun l => decide (trimStr l ≠ ""))).length ∧
        (∀ qnew, lookupQueue st'.messageQueues task.sessionId = some qnew →
          ∀ (ok : Nat → Bool) (fuel : Nat),
            ∀ t ∈ (processQueue ok fuel (st'.activeTasks, qnew)).1,
              t.taskId = tid → t.sentMessages ≤ task.totalMessages)) ∧
    (∀ (ok : Nat → Nat → Bool) (sr : Nat → Bool) (ms : List String) (idx : Nat)
       (t : TaskInfo),
      (runLoop ok sr ms idx t).sentMessages ≤ t.sentMessages + ms.length) := by
  constructor
  · intro st sub now content tid st' hfile hok hfreshT hfreshQ
    obtain ⟨sid, si, tgt, content', hsid, hss, htgt, hfc, hne, hpair⟩ :=
      sendMessage_ok_inv st sub now tid st' hok
    rw [hfile] at hfc
    obtain rfl : content = content' := Option.some.inj hfc
    have htid : tid
        = (buildTaskInfo sid si sub tgt (parseMessages content).length now).taskId :=
      congrArg Prod.fst hpair
    subst htid
    have hst' : st' = (createTaskAndEnqueue st sid si sub tgt content now).2 :=
      congrArg Prod.snd hpair
    have hTasks : st'.activeTasks = st.activeTasks
        ++ [buildTaskInfo sid si sub tgt (parseMessages content).length now] := by
      rw [hst']
      rfl
    refine ⟨buildTaskInfo sid si sub tgt (parseMessages content).length now,
      hTasks, rfl, rfl, parseMessages_length content, ?_⟩
    intro qnew hqnew ok fuel t' ht' hid'
    rw [hst'] at hqnew
    replace hqnew : lookupQueue
        (createTaskAndEnqueue st sid si sub tgt content now).2.messageQueues sid
        = some qnew := hqnew
    have hpend : pendingCount qnew.messages
        (buildTaskInfo sid si sub tgt (parseMessages content).length now).taskId
        = (parseMessages content).length := by
      cases hlk : lookupQueue st.messageQueues sid with
      | none =>
        rw [createTaskAndEnqueue_lookup_none st sid si sub tgt content now hlk] at hqnew
        obtain rfl := Option.some.inj hqnew
        exact pendingCount_entriesFor _ _ _
      | some q0 =>
        rw [createTaskAndEnqueue_lookup_some st sid si sub tgt content now q0 hlk] at hqnew
        obtain rfl := Option.some.inj hqnew
        have hmem := lookupQueue_mem st.messageQueues sid q0 hlk
        have hzero : pendingCount q0.messages
            (buildTaskInfo sid si sub tgt (parseMessages content).length now).taskId = 0 :=
          pendingCount_eq_zero _ _ (hfreshQ sid q0 hmem)
        show pendingCount (q0.messages ++ entriesFor _ _ _) _ = _
        rw [pendingCount_append, hzero, pendingCount_entriesFor]
        omega
    have hbound : sentBound
        (buildTaskInfo sid si sub tgt (parseMessages content).length now).taskId
        (parseMessages content).length (st'.activeTasks, qnew) := by
      intro t htmem hidt
      rw [hTasks] at htmem
      rcases List.mem_append.mp htmem with hin | hin
      · exact absurd hidt (hfreshT t hin)
      · obtain rfl := List.mem_singleton.mp hin
        show (buildTaskInfo sid si sub tgt (parseMessages content).length now).sentMessages
            + pendingCount qnew.messages _ ≤ (parseMessages content).length
        rw [hpend]
        show 0 + (parseMessages content).length ≤ (parseMessages content).length
        omega
    exact processQueue_sent_le ok _ (parseMessages content).length fuel
      (st'.activeTasks, qnew) hbound t' ht' hid'
  · exact runLoop_sent_le

/-- Concrete data for the C2 witness: a valid submission whose file has two
non-empty lines among four. -/
def c2Session : SessionInfo :=
  { sessionId := "s1", ownerId := "alice", registered := true, isConnecting := false }

def c2St : ServerState :=
  { activeClients := [c2Session], activeTasks := [], messageQueues := [] }

def c2Sub : Submission :=
  { sessionId := some "s1", target := some "123", targetType := some "individual"
    delaySec := some 2, userPfx := none, userId := some "alice", groupId := none
    fileContent := some "hello\n\n world \n" }

def c2Task : TaskInfo :=
  { taskId := "TASK_7", sessionId := "s1", ownerId := "alice", isSending := true
    stopRequested := false, totalMessages := 2, sentMessages := 0
    target := "123", targetType := "individual", pfx := "" }

def c2StAfter : ServerState :=
  { activeClients := [c2Session], activeTasks := [c2Task]
    messageQueues := [("s1",
      { messages :=
          [{ text := "hello", recipient := "123@s.whatsapp.net", taskId := "TASK_7",
             delayMs := 2000 },
           { text := "world", recipient := "123@s.whatsapp.net", taskId := "TASK_7",
             delayMs := 2000 }] })] }

/-- Witness for `C2_total_and_sent_bound` at the concrete submission. -/
theorem C2_total_and_sent_bound_witness :
    c2Sub.fileContent = some "hello\n\n world \n" ∧
    sendMessage c2St c2Sub 7 = .ok ("TASK_7", c2StAfter) ∧
    (∀ t ∈ c2St.activeTasks, t.taskId ≠ "TASK_7") ∧
    (∀ sid q, (sid, q) ∈ c2St.messageQueues → ∀ e ∈ q.messages, e.taskId ≠ "TASK_7") ∧
    (∃ task, c2StAfter.activeTasks = c2St.activeTasks ++ [task] ∧
      task.taskId = "TASK_7" ∧ task.sentMessages = 0 ∧
      task.totalMessages = ((splitLines "hello\n\n world \n").filter
        (fun l => decide (trimStr l ≠ ""))).length ∧
      (∀ qnew, lookupQueue c2StAfter.messageQueues task.sessionId = some qnew →
        ∀ (ok : Nat → Bool) (fuel : Nat),
          ∀ t ∈ (processQueue ok fuel (c2StAfter.activeTasks, qnew)).1,
            t.taskId = "TASK_7" → t.sentMessages ≤ task.totalMessages)) :=
  ⟨rfl, rfl,
    fun t ht => absurd ht (List.not_mem_nil t),
    fun sid q hq => absurd hq (List.not_mem_nil (sid, q)),
    C2_total_and_sent_bound.1 c2St c2Sub 7 "hello\n\n world \n" "TASK_7" c2StAfter
      rfl rfl (fun t ht => absurd ht (List.not_mem_nil t))
      (fun sid q hq _ _ => absurd hq (List.not_mem_nil (sid, q)))⟩

/-- Concrete task for the C3 witness. -/
def c3wTask : TaskInfo :=
  { taskId := "TASK_5", sessionId := "s2", ownerId := "bob", isSending := true
    stopRequested := false, totalMessages := 1, sentMessages := 0
    target := "9", targetType := "group", pfx := "" }

/-- Witness for `C3_all_sends_fail` at a concrete one-message task. -/
theorem C3_all_sends_fail_witness :
    c3wTask.stopRequested = false ∧
    ((executeTask (fun _ _ => false) (fun _ => false) ["x"] 4 c3wTask).sentMessages
        = c3wTask.sentMessages + (["x"] : List String).length ∧
     (executeTask (fun _ _ => false) (fun _ => false) ["x"] 4 c3wTask).completed = true ∧
     (executeTask (fun _ _ => false) (fun _ => false) ["x"] 4 c3wTask).isSending = false ∧
     ((["x"] : List String) ≠ [] →
       (executeTask (fun _ _ => false) (fun _ => false) ["x"] 4 c3wTask).error
         = some "Failed to send message after 3 attempts")) :=
  ⟨rfl, C3_all_sends_fail ["x"] 4 c3wTask rfl⟩

/-- Concrete task for the C4 witness. -/
def c4wTask : TaskInfo :=
  { taskId := "TASK_6", sessionId := "s3", ownerId := "carol", isSending := true
    stopRequested := false, totalMessages := 4, sentMessages := 2
    target := "9", targetType := "individual", pfx := "" }

/-- Witness for `C4_stop_terminates` at a concrete stop-then-finish run. -/
theorem C4_stop_terminates_witness :
    c4wTask.endTimeWrites = 0 ∧
    ((executeTask (fun _ _ => true) (fun _ => false) ["m"] 8
        (stopTaskFields 3 c4wTask)).sentMessages = c4wTask.sentMessages ∧
     statusString (executeTask (fun _ _ => true) (fun _ => false) ["m"] 8
        (stopTaskFields 3 c4wTask)) = "completed" ∧
     (executeTask (fun _ _ => true) (fun _ => false) ["m"] 8
        (stopTaskFields 3 c4wTask)).endTimeWrites = 2 ∧
     (executeTask (fun _ _ => true) (fun _ => false) ["m"] 8
        (stopTaskFields 3 c4wTask)).isSending = false ∧
     (executeTask (fun _ _ => true) (fun _ => false) ["m"] 8
        (stopTaskFields 3 c4wTask)).stopRequested = true) :=
  ⟨rfl, C4_stop_terminates (fun _ _ => true) (fun _ => false) ["m"] 3 8 c4wTask rfl⟩
